import Mathlib

/-!
# Verification of the SuperbowlGame frame-update logic

A shallow embedding of `src/components/Game.tsx`: the lane-dodge game's
constants, data model, input handlers, spawner, collision check and the
per-frame game loop, followed by theorems checking the specification's
claims against this embedding.

JavaScript numbers are modelled as exact rationals (ℚ); lane indices and
the health counter as integers (ℤ).  Randomness (`Math.random`) is
modelled by an explicit stream of draws in `Fin 3` (every draw in the
source is `Math.floor(Math.random() * 3)`); the spawner's retry loop
(`do … while (usedLanes.has(lane))`) consumes the stream and returns
`none` when the finite stream runs out, corresponding to the
probability-zero event that the retry loop never finds a fresh lane.
Rendering (canvas drawing, the background-stripe offset) and opaque image
handles are outside the model; the early-return when the canvas is
missing is kept as a `canvasPresent` flag.
-/

namespace Superbowl

/-- `GAME_WIDTH = 300` from Game.tsx. -/
def GAME_WIDTH : ℚ := 300

/-- `GAME_HEIGHT = 400`. -/
def GAME_HEIGHT : ℚ := 400

/-- `PLAYER_WIDTH = 37.5`. -/
def PLAYER_WIDTH : ℚ := 75 / 2

/-- `PLAYER_HEIGHT = 37.5`. -/
def PLAYER_HEIGHT : ℚ := 75 / 2

/-- `OBSTACLE_WIDTH = GAME_WIDTH / 3 * 0.6`. -/
def OBSTACLE_WIDTH : ℚ := GAME_WIDTH / 3 * (6 / 10)

/-- `OBSTACLE_HEIGHT = 60`. -/
def OBSTACLE_HEIGHT : ℚ := 60

/-- `CLOUD_WIDTH = OBSTACLE_WIDTH * 1.5`. -/
def CLOUD_WIDTH : ℚ := OBSTACLE_WIDTH * (3 / 2)

/-- `CLOUD_HEIGHT = OBSTACLE_HEIGHT * 1.5`. -/
def CLOUD_HEIGHT : ℚ := OBSTACLE_HEIGHT * (3 / 2)

/-- `GRAVITY = 0.6`. -/
def GRAVITY : ℚ := 6 / 10

/-- `JUMP_FORCE = -7.5`. -/
def JUMP_FORCE : ℚ := -(15 / 2)

/-- `LANE_COUNT = 3`. -/
def LANE_COUNT : ℤ := 3

/-- `LANE_WIDTH = GAME_WIDTH / 3`. -/
def LANE_WIDTH : ℚ := GAME_WIDTH / 3

/-- `OBSTACLE_FALL_SPEED = 8`. -/
def OBSTACLE_FALL_SPEED : ℚ := 8

/-- `OBSTACLE_SPAWN_INTERVAL = 500` (milliseconds). -/
def OBSTACLE_SPAWN_INTERVAL : ℚ := 500

/-- `COLLISION_PAUSE_DURATION = 2000` (milliseconds). -/
def COLLISION_PAUSE_DURATION : ℚ := 2000

/-- The player record held in `gameStateRef.current.player` (the opaque
`image` handle is dropped). -/
structure Player where
  lane : ℤ
  x : ℚ
  y : ℚ
  width : ℚ
  height : ℚ
  velocityY : ℚ
  isJumping : Bool
  deriving Repr, DecidableEq

/-- The `GameObject` interface used for obstacles (the opaque `image`
handle is dropped; `speed?` is the optional field of the interface). -/
structure GameObject where
  lane : ℤ
  x : ℚ
  y : ℚ
  width : ℚ
  height : ℚ
  speed : Option ℚ
  deriving Repr, DecidableEq

/-- The `Collision` interface: position and timestamp of the collision
marker stored in `collisionRef`. -/
structure Collision where
  x : ℚ
  y : ℚ
  timestamp : ℚ
  deriving Repr, DecidableEq

/-- The mutable session state: the React state hooks (`health`,
`gameTime`, `gameOver`, `gameStarted`), the refs `collisionRef` and
`pausedUntilRef`, and `gameStateRef` (player, obstacles,
`lastObstacleTime`; the animation-frame id is scheduling, not state). -/
structure GameState where
  health : ℤ
  gameTime : ℚ
  gameOver : Bool
  gameStarted : Bool
  collision : Option Collision
  pausedUntil : ℚ
  player : Player
  obstacles : List GameObject
  lastObstacleTime : ℚ
  deriving Repr, DecidableEq

/-- `getLaneX(lane) = lane * LANE_WIDTH + (LANE_WIDTH - PLAYER_WIDTH) / 2`. -/
def getLaneX (lane : ℤ) : ℚ :=
  (lane : ℚ) * LANE_WIDTH + (LANE_WIDTH - PLAYER_WIDTH) / 2

/-- The key codes distinguished by `handleKeyDown`'s `switch`. -/
inductive KeyCode where
  | space
  | arrowUp
  | arrowLeft
  | arrowRight
  | other
  deriving Repr, DecidableEq

/-- `handleKeyDown`: early-returns while `Date.now() < pausedUntilRef`,
otherwise jumps (Space/ArrowUp) or shifts lane with bounds guards. -/
def handleKeyDown (now pausedUntil : ℚ) (code : KeyCode) (player : Player) :
    Player :=
  if now < pausedUntil then player
  else
    match code with
    | .space | .arrowUp =>
        if !player.isJumping then
          { player with velocityY := JUMP_FORCE, isJumping := true }
        else player
    | .arrowLeft =>
        if player.lane > 0 then
          { player with lane := player.lane - 1, x := getLaneX (player.lane - 1) }
        else player
    | .arrowRight =>
        if player.lane < LANE_COUNT - 1 then
          { player with lane := player.lane + 1, x := getLaneX (player.lane + 1) }
        else player
    | .other => player

/-- `handleTouchStart`: `relX`/`relY` are the touch coordinates relative
to the canvas rectangle (`touch.clientX - rect.left`,
`touch.clientY - rect.top`) and `rectHeight` its height. -/
def handleTouchStart (now pausedUntil : ℚ) (canvasPresent : Bool)
    (relX relY rectHeight : ℚ) (player : Player) : Player :=
  if now < pausedUntil then player
  else if !canvasPresent then player
  else if relY > rectHeight / 3 ∧ relY < rectHeight * 2 / 3 then
    if !player.isJumping then
      { player with velocityY := JUMP_FORCE, isJumping := true }
    else player
  else if relX < GAME_WIDTH / 3 ∧ player.lane > 0 then
    { player with lane := player.lane - 1, x := getLaneX (player.lane - 1) }
  else if relX > GAME_WIDTH * 2 / 3 ∧ player.lane < LANE_COUNT - 1 then
    { player with lane := player.lane + 1, x := getLaneX (player.lane + 1) }
  else player

/-- The three actions of the mobile control buttons. -/
inductive MobileAction where
  | left
  | right
  | jump
  deriving Repr, DecidableEq

/-- `handleMobileControl`. -/
def handleMobileControl (now pausedUntil : ℚ) (action : MobileAction)
    (player : Player) : Player :=
  if now < pausedUntil then player
  else
    match action with
    | .jump =>
        if !player.isJumping then
          { player with velocityY := JUMP_FORCE, isJumping := true }
        else player
    | .left =>
        if player.lane > 0 then
          { player with lane := player.lane - 1, x := getLaneX (player.lane - 1) }
        else player
    | .right =>
        if player.lane < LANE_COUNT - 1 then
          { player with lane := player.lane + 1, x := getLaneX (player.lane + 1) }
        else player

/-- `checkCollision`: false while jumping; otherwise vertical
bounding-interval overlap and same lane. -/
def checkCollision (player : Player) (obstacle : GameObject) : Bool :=
  if player.isJumping then false
  else
    (decide (player.y < obstacle.y + obstacle.height) &&
      decide (player.y + player.height > obstacle.y)) &&
    decide (player.lane = obstacle.lane)

/-- JavaScript's `obstacle.speed || OBSTACLE_FALL_SPEED`: the fall speed
with falsy (`undefined` or `0`) values replaced by the default. -/
def fallSpeed (ob : GameObject) : ℚ :=
  match ob.speed with
  | some s => if s = 0 then OBSTACLE_FALL_SPEED else s
  | none => OBSTACLE_FALL_SPEED

/-- The obstacle pushed by one iteration of `generateObstacles`' spawn
loop: spawned at the top of its lane with the time-ramped fall speed. -/
def mkObstacle (lane : ℤ) (gameTime : ℚ) : GameObject :=
  { lane := lane
    x := getLaneX lane
    y := -OBSTACLE_HEIGHT
    width := OBSTACLE_WIDTH
    height := OBSTACLE_HEIGHT
    speed := some (OBSTACLE_FALL_SPEED + gameTime / 60) }

/-- The `do { lane = Math.floor(Math.random() * LANE_COUNT) } while
(usedLanes.has(lane))` retry loop: draw from the stream until a lane not
in `used` appears; `none` when the stream runs out. -/
def pickFreshLane (used : List ℤ) : List (Fin 3) → Option (ℤ × List (Fin 3))
  | [] => none
  | r :: rest =>
      if ((r : ℕ) : ℤ) ∈ used then pickFreshLane used rest
      else some (((r : ℕ) : ℤ), rest)

/-- The spawn `for` loop of `generateObstacles`: `n` iterations, each
picking a fresh lane and pushing an obstacle; `used` is the `usedLanes`
set, `acc` the obstacle array being pushed to. -/
def spawnLoop (gameTime : ℚ) :
    ℕ → List ℤ → List GameObject → List (Fin 3) →
      Option (List GameObject × List (Fin 3))
  | 0, _, acc, rands => some (acc, rands)
  | n + 1, used, acc, rands =>
      match pickFreshLane used rands with
      | none => none
      | some (lane, rest) =>
          spawnLoop gameTime n (lane :: used) (acc ++ [mkObstacle lane gameTime]) rest

/-- `generateObstacles(timestamp)`: when the spawn interval has elapsed,
draw `numObstacles = Math.min(3, Math.floor(Math.random() * 3) + 1)` and
run the spawn loop; returns the updated obstacle array, the updated
`lastObstacleTime`, and the remaining random stream. -/
def generateObstacles (timestamp gameTime lastObstacleTime : ℚ)
    (obstacles : List GameObject) (rands : List (Fin 3)) :
    Option (List GameObject × ℚ × List (Fin 3)) :=
  if timestamp - lastObstacleTime > OBSTACLE_SPAWN_INTERVAL then
    match rands with
    | [] => none
    | r :: rest =>
        let numObstacles : ℕ := min 3 ((r : ℕ) + 1)
        match spawnLoop gameTime numObstacles [] obstacles rest with
        | none => none
        | some (obstacles2, rest2) => some (obstacles2, timestamp, rest2)
  else some (obstacles, lastObstacleTime, rands)

/-- The part of the session state the obstacle loop of `gameLoop` writes
to besides the obstacle array: `health` (with its `setHealth` updater),
`gameOver`, `collisionRef` and `pausedUntilRef`. -/
structure LoopState where
  health : ℤ
  gameOver : Bool
  collision : Option Collision
  pausedUntil : ℚ
  deriving Repr, DecidableEq

/-- The reverse `for` loop over obstacles in `gameLoop`: each obstacle
falls by its speed, is pruned past the bottom edge, and is otherwise
checked for collision.  On a collision the marker and the pause deadline
are set; then `setHealth` either (health ≤ 1) sets game over and health 0,
keeping the obstacle, or removes the obstacle (`splice`) and decrements
health.  The source iterates from the last index down to 0, so in this
recursion the tail is processed first and the head sees the tail's
resulting state. -/
def obstacleLoop (player : Player) (now : ℚ) :
    List GameObject → LoopState → List GameObject × LoopState
  | [], st => ([], st)
  | ob :: rest, st =>
      let (restOut, st1) := obstacleLoop player now rest st
      let moved := { ob with y := ob.y + fallSpeed ob }
      if moved.y > GAME_HEIGHT then (restOut, st1)
      else if checkCollision player moved then
        let st2 : LoopState :=
          { st1 with
              collision := some
                { x := moved.x - (CLOUD_WIDTH - OBSTACLE_WIDTH) / 2
                  y := moved.y - (CLOUD_HEIGHT - OBSTACLE_HEIGHT) / 2
                  timestamp := now }
              pausedUntil := now + COLLISION_PAUSE_DURATION }
        if st2.health ≤ 1 then
          (moved :: restOut, { st2 with gameOver := true, health := 0 })
        else
          (restOut, { st2 with health := st2.health - 1 })
      else (moved :: restOut, st1)

/-- The gravity/ground-clamp step of `gameLoop`. -/
def applyPhysics (player : Player) : Player :=
  let v := player.velocityY + GRAVITY
  let y := player.y + v
  if y > GAME_HEIGHT - PLAYER_HEIGHT then
    { player with y := GAME_HEIGHT - PLAYER_HEIGHT, velocityY := 0, isJumping := false }
  else
    { player with y := y, velocityY := v }

/-- One invocation of `gameLoop(timestamp)`.  `now` is `Date.now()`;
`canvasPresent` models `canvasRef.current` being non-null (a missing
canvas or a set game-over flag early-returns with nothing changed).
While `now < pausedUntilRef` only rendering happens.  Otherwise physics,
spawning and the obstacle loop run, and `gameTime` advances by `1/60`
only if `now` is still past the (possibly just-updated) pause deadline.
`none` only when the random stream runs out inside the spawner. -/
def gameLoop (canvasPresent : Bool) (timestamp now : ℚ)
    (rands : List (Fin 3)) (s : GameState) : Option GameState :=
  if !canvasPresent || s.gameOver then some s
  else if now ≥ s.pausedUntil then
    let player := applyPhysics s.player
    match generateObstacles timestamp s.gameTime s.lastObstacleTime s.obstacles rands with
    | none => none
    | some (obstacles1, lastObstacleTime, _) =>
        let (obstacles2, st) := obstacleLoop player now obstacles1
          { health := s.health, gameOver := s.gameOver
            collision := s.collision, pausedUntil := s.pausedUntil }
        some
          { health := st.health
            gameTime := if now ≥ st.pausedUntil then s.gameTime + 1 / 60 else s.gameTime
            gameOver := st.gameOver
            gameStarted := s.gameStarted
            collision := st.collision
            pausedUntil := st.pausedUntil
            player := player
            obstacles := obstacles2
            lastObstacleTime := lastObstacleTime }
  else some s

/-- `startGame()`: reset the session (the fresh `gameStateRef` record). -/
def startGame (_s : GameState) : GameState :=
  { health := 3
    gameTime := 0
    gameOver := false
    gameStarted := true
    collision := none
    pausedUntil := 0
    player :=
      { lane := 1
        x := getLaneX 1
        y := GAME_HEIGHT - PLAYER_HEIGHT
        width := PLAYER_WIDTH
        height := PLAYER_HEIGHT
        velocityY := 0
        isJumping := false }
    obstacles := []
    lastObstacleTime := 0 }

/-- The initial state: the `useState` initial values and the initializer
of `gameStateRef` (where the player's `x` is written out literally as
`LANE_WIDTH + (LANE_WIDTH - PLAYER_WIDTH) / 2`). -/
def initState : GameState :=
  { health := 3
    gameTime := 0
    gameOver := false
    gameStarted := false
    collision := none
    pausedUntil := 0
    player :=
      { lane := 1
        x := LANE_WIDTH + (LANE_WIDTH - PLAYER_WIDTH) / 2
        y := GAME_HEIGHT - PLAYER_HEIGHT
        width := PLAYER_WIDTH
        height := PLAYER_HEIGHT
        velocityY := 0
        isJumping := false }
    obstacles := []
    lastObstacleTime := 0 }

/-- `handleKeyDown` acting on the session state (the handler reads
`pausedUntilRef` from the session and mutates only the player). -/
def applyKeyDown (now : ℚ) (code : KeyCode) (s : GameState) : GameState :=
  { s with player := handleKeyDown now s.pausedUntil code s.player }

/-- `handleTouchStart` acting on the session state. -/
def applyTouchStart (now : ℚ) (canvasPresent : Bool)
    (relX relY rectHeight : ℚ) (s : GameState) : GameState :=
  { s with player := handleTouchStart now s.pausedUntil canvasPresent relX relY rectHeight s.player }

/-- `handleMobileControl` acting on the session state. -/
def applyMobileControl (now : ℚ) (action : MobileAction) (s : GameState) : GameState :=
  { s with player := handleMobileControl now s.pausedUntil action s.player }

/-- States reachable from the initial state by input handlers, frame
updates and restarts. -/
inductive Reachable : GameState → Prop
  | init : Reachable initState
  | key (now : ℚ) (code : KeyCode) {s : GameState} :
      Reachable s → Reachable (applyKeyDown now code s)
  | touch (now : ℚ) (canvasPresent : Bool) (relX relY rectHeight : ℚ)
      {s : GameState} :
      Reachable s → Reachable (applyTouchStart now canvasPresent relX relY rectHeight s)
  | mobile (now : ℚ) (action : MobileAction) {s : GameState} :
      Reachable s → Reachable (applyMobileControl now action s)
  | frame (canvasPresent : Bool) (timestamp now : ℚ) (rands : List (Fin 3))
      {s s' : GameState} :
      Reachable s → gameLoop canvasPresent timestamp now rands s = some s' →
      Reachable s'
  | restart {s : GameState} : Reachable s → Reachable (startGame s)

/-! ## Claim C9: the lane-to-x mapping -/

/-- **C9**: for every lane `L` in `[0, LANE_COUNT-1]`, `getLaneX L`
equals `L * LANE_WIDTH + (LANE_WIDTH - PLAYER_WIDTH) / 2`, is
deterministic (equal lanes give equal x), and is strictly monotonically
increasing in the lane. -/
theorem getLaneX_formula_det_mono :
    (∀ L : ℤ, 0 ≤ L → L ≤ LANE_COUNT - 1 →
      getLaneX L = (L : ℚ) * LANE_WIDTH + (LANE_WIDTH - PLAYER_WIDTH) / 2) ∧
    (∀ L1 L2 : ℤ, 0 ≤ L1 → L1 ≤ LANE_COUNT - 1 → L1 = L2 →
      getLaneX L1 = getLaneX L2) ∧
    (∀ L1 L2 : ℤ, 0 ≤ L1 → L2 ≤ LANE_COUNT - 1 → L1 < L2 →
      getLaneX L1 < getLaneX L2) := by
  refine ⟨fun L _ _ => rfl, fun L1 L2 _ _ h => h ▸ rfl, fun L1 L2 _ _ h => ?_⟩
  unfold getLaneX
  have hL : (L1 : ℚ) < (L2 : ℚ) := by exact_mod_cast h
  have hw : (0 : ℚ) < LANE_WIDTH := by norm_num [LANE_WIDTH, GAME_WIDTH]
  exact add_lt_add_right (mul_lt_mul_of_pos_right hL hw) _

/-- Witness for C9 at lanes 1, and 0 < 2. -/
theorem getLaneX_formula_det_mono_witness :
    getLaneX 1 = (1 : ℚ) * LANE_WIDTH + (LANE_WIDTH - PLAYER_WIDTH) / 2 ∧
    getLaneX 0 < getLaneX 2 :=
  ⟨getLaneX_formula_det_mono.1 1 (by norm_num) (by norm_num [LANE_COUNT]),
   getLaneX_formula_det_mono.2.2 0 2 (by norm_num) (by norm_num [LANE_COUNT])
     (by norm_num)⟩

/-! ## Claim C2: the collision predicate -/

/-- **C2**: `checkCollision` returns `false` whenever the player is
jumping, for every position and obstacle; when not jumping it returns
`true` exactly when the vertical bounding intervals overlap and the lane
indices are equal. -/
theorem checkCollision_jumping_overlap (player : Player) (ob : GameObject) :
    (player.isJumping = true → checkCollision player ob = false) ∧
    (player.isJumping = false →
      (checkCollision player ob = true ↔
        (player.y < ob.y + ob.height ∧ player.y + player.height > ob.y) ∧
          player.lane = ob.lane)) := by
  constructor
  · intro h
    simp [checkCollision, h]
  · intro h
    simp [checkCollision, h]

/-- Witness for C2: a jumping player overlapping an obstacle in its lane
is not in collision; the same player not jumping is. -/
theorem checkCollision_jumping_overlap_witness :
    checkCollision
        { lane := 0, x := 0, y := 350, width := 75 / 2, height := 75 / 2,
          velocityY := 0, isJumping := true }
        { lane := 0, x := 0, y := 340, width := 60, height := 60,
          speed := none } = false ∧
      (checkCollision
        { lane := 0, x := 0, y := 350, width := 75 / 2, height := 75 / 2,
          velocityY := 0, isJumping := false }
        { lane := 0, x := 0, y := 340, width := 60, height := 60,
          speed := none } = true ↔
        ((350 : ℚ) < 340 + 60 ∧ (350 : ℚ) + 75 / 2 > 340) ∧ (0 : ℤ) = 0) :=
  ⟨(checkCollision_jumping_overlap _ _).1 rfl,
   (checkCollision_jumping_overlap _ _).2 rfl⟩

/-! ## Claim C6: inputs are no-ops while paused -/

/-- **C6**: while `now` is before the collision-pause deadline, all three
input surfaces (keyboard, touch, mobile buttons) leave the player state
unchanged, for every action and every player state. -/
theorem handlers_noop_while_paused (now pausedUntil : ℚ)
    (h : now < pausedUntil) (code : KeyCode) (canvasPresent : Bool)
    (relX relY rectHeight : ℚ) (action : MobileAction) (player : Player) :
    handleKeyDown now pausedUntil code player = player ∧
    handleTouchStart now pausedUntil canvasPresent relX relY rectHeight
      player = player ∧
    handleMobileControl now pausedUntil action player = player := by
  refine ⟨?_, ?_, ?_⟩ <;>
    simp [handleKeyDown, handleTouchStart, handleMobileControl, h]

/-- Witness for C6 at `now = 0`, deadline `2000`, a jump key, a touch in
the jump zone and a left button press. -/
theorem handlers_noop_while_paused_witness :
    handleKeyDown 0 2000 .space (startGame initState).player =
      (startGame initState).player ∧
    handleTouchStart 0 2000 true 150 200 400 (startGame initState).player =
      (startGame initState).player ∧
    handleMobileControl 0 2000 .left (startGame initState).player =
      (startGame initState).player :=
  handlers_noop_while_paused 0 2000 (by norm_num) .space true 150 200 400
    .left (startGame initState).player

/-! ## Claim C7: restart resets the session -/

/-- **C7**: `startGame`, from any state, resets health to 3, elapsed game
time to 0, the obstacle set to empty, and clears the pause deadline and
the collision marker. -/
theorem startGame_resets (s : GameState) :
    (startGame s).health = 3 ∧ (startGame s).gameTime = 0 ∧
    (startGame s).obstacles = [] ∧ (startGame s).pausedUntil = 0 ∧
    (startGame s).collision = none := by
  simp [startGame]

/-! ## Claims C1 and C4: what a processed collision does

Both claims are about the collision branch of the obstacle loop, which
`gameLoop` runs only in the unpaused case.  They are stated on one
collision-processing step: the list `[ob]` with an arbitrary incoming
`LoopState st` standing for the session state after the later-indexed
obstacles of the frame were already processed. -/

/-- **C1**: when a collision is processed with health > 1, health
decrements by 1, the offending obstacle is removed, the collision marker
is recorded and the pause deadline becomes `now + COLLISION_PAUSE_DURATION`;
with health = 1, health becomes 0 and the game-over flag is set. -/
theorem collision_health_transition (player : Player) (now : ℚ)
    (ob : GameObject) (st : LoopState)
    (hin : ¬ ob.y + fallSpeed ob > GAME_HEIGHT)
    (hcol : checkCollision player { ob with y := ob.y + fallSpeed ob } = true) :
    (1 < st.health →
      obstacleLoop player now [ob] st =
        ([],
          { health := st.health - 1
            gameOver := st.gameOver
            collision := some
              { x := ob.x - (CLOUD_WIDTH - OBSTACLE_WIDTH) / 2
                y := ob.y + fallSpeed ob - (CLOUD_HEIGHT - OBSTACLE_HEIGHT) / 2
                timestamp := now }
            pausedUntil := now + COLLISION_PAUSE_DURATION })) ∧
    (st.health = 1 →
      (obstacleLoop player now [ob] st).2.health = 0 ∧
      (obstacleLoop player now [ob] st).2.gameOver = true) := by
  constructor
  · intro h1
    simp [obstacleLoop, hin, hcol, show ¬ st.health ≤ 1 by omega]
  · intro h1
    simp [obstacleLoop, hin, hcol, h1]

/-- Concrete witness player: on the ground in lane 0, not jumping. -/
def wPlayer : Player :=
  { lane := 0, x := getLaneX 0, y := GAME_HEIGHT - PLAYER_HEIGHT,
    width := PLAYER_WIDTH, height := PLAYER_HEIGHT, velocityY := 0,
    isJumping := false }

/-- Concrete witness obstacle: lane 0, one step above overlapping the
grounded player. -/
def wOb : GameObject :=
  { lane := 0, x := getLaneX 0, y := 330, width := OBSTACLE_WIDTH,
    height := OBSTACLE_HEIGHT, speed := some 8 }

/-- Witness for C1: the collision of `wPlayer` and `wOb` processed at
health 3 and at health 1. -/
theorem collision_health_transition_witness :
    obstacleLoop wPlayer 0 [wOb]
        { health := 3, gameOver := false, collision := none, pausedUntil := 0 } =
      ([],
        { health := 3 - 1
          gameOver := false
          collision := some
            { x := wOb.x - (CLOUD_WIDTH - OBSTACLE_WIDTH) / 2
              y := wOb.y + fallSpeed wOb - (CLOUD_HEIGHT - OBSTACLE_HEIGHT) / 2
              timestamp := 0 }
          pausedUntil := 0 + COLLISION_PAUSE_DURATION }) ∧
    (obstacleLoop wPlayer 0 [wOb]
        { health := 1, gameOver := false, collision := none,
          pausedUntil := 0 }).2.health = 0 ∧
    (obstacleLoop wPlayer 0 [wOb]
        { health := 1, gameOver := false, collision := none,
          pausedUntil := 0 }).2.gameOver = true :=
  ⟨(collision_health_transition wPlayer 0 wOb _
      (by norm_num [wOb, fallSpeed, GAME_HEIGHT])
      (by norm_num [checkCollision, wPlayer, wOb, fallSpeed, GAME_HEIGHT,
        PLAYER_HEIGHT, OBSTACLE_HEIGHT])).1 (by norm_num),
   (collision_health_transition wPlayer 0 wOb _
      (by norm_num [wOb, fallSpeed, GAME_HEIGHT])
      (by norm_num [checkCollision, wPlayer, wOb, fallSpeed, GAME_HEIGHT,
        PLAYER_HEIGHT, OBSTACLE_HEIGHT])).2 rfl⟩

/-- A concrete session state at minimum health with one obstacle about
to collide: health 1, unpaused, `wOb` one fall-step above the grounded
`wPlayer`. -/
def wStateMinHealth : GameState :=
  { health := 1, gameTime := 0, gameOver := false, gameStarted := true,
    collision := none, pausedUntil := 0, player := wPlayer,
    obstacles := [wOb], lastObstacleTime := 0 }

/-- Counterexample to **C4**: a frame update on `wStateMinHealth`
processes a collision (health drops to 0 and the game-over flag is set)
yet the offending obstacle is NOT removed — `setHealth`'s updater calls
`splice` only in its `prev > 1` branch, so the resulting obstacle array
still holds the moved obstacle. -/
theorem collision_keeps_obstacle_at_min_health :
    gameLoop true 100 0 [] wStateMinHealth =
      some
        { health := 0, gameTime := 0, gameOver := true, gameStarted := true,
          collision := some
            { x := wOb.x - (CLOUD_WIDTH - OBSTACLE_WIDTH) / 2
              y := wOb.y + 8 - (CLOUD_HEIGHT - OBSTACLE_HEIGHT) / 2
              timestamp := 0 }
          pausedUntil := 2000, player := wPlayer,
          obstacles := [{ wOb with y := wOb.y + 8 }],
          lastObstacleTime := 0 } := by
  norm_num [gameLoop, wStateMinHealth, applyPhysics, generateObstacles,
    obstacleLoop, checkCollision, fallSpeed, wPlayer, wOb, GAME_HEIGHT,
    PLAYER_HEIGHT, GRAVITY, OBSTACLE_SPAWN_INTERVAL, OBSTACLE_HEIGHT,
    COLLISION_PAUSE_DURATION]

/-- **C4 amended**: when a collision is processed with health > 1 the
offending obstacle is removed from the obstacle array; with health ≤ 1
it is kept (only the game-over flag and health change). -/
theorem collision_removal_depends_on_health (player : Player) (now : ℚ)
    (ob : GameObject) (st : LoopState)
    (hin : ¬ ob.y + fallSpeed ob > GAME_HEIGHT)
    (hcol : checkCollision player { ob with y := ob.y + fallSpeed ob } = true) :
    (1 < st.health → (obstacleLoop player now [ob] st).1 = []) ∧
    (st.health ≤ 1 →
      (obstacleLoop player now [ob] st).1 =
        [{ ob with y := ob.y + fallSpeed ob }]) := by
  constructor
  · intro h1
    simp [obstacleLoop, hin, hcol, show ¬ st.health ≤ 1 by omega]
  · intro h1
    simp [obstacleLoop, hin, hcol, h1]

/-- Witness for the amended C4 at health 2 and health 1. -/
theorem collision_removal_depends_on_health_witness :
    (obstacleLoop wPlayer 0 [wOb]
        { health := 2, gameOver := false, collision := none,
          pausedUntil := 0 }).1 = [] ∧
    (obstacleLoop wPlayer 0 [wOb]
        { health := 1, gameOver := false, collision := none,
          pausedUntil := 0 }).1 = [{ wOb with y := wOb.y + fallSpeed wOb }] :=
  ⟨(collision_removal_depends_on_health wPlayer 0 wOb _
      (by norm_num [wOb, fallSpeed, GAME_HEIGHT])
      (by norm_num [checkCollision, wPlayer, wOb, fallSpeed, GAME_HEIGHT,
        PLAYER_HEIGHT, OBSTACLE_HEIGHT])).1 (by norm_num),
   (collision_removal_depends_on_health wPlayer 0 wOb _
      (by norm_num [wOb, fallSpeed, GAME_HEIGHT])
      (by norm_num [checkCollision, wPlayer, wOb, fallSpeed, GAME_HEIGHT,
        PLAYER_HEIGHT, OBSTACLE_HEIGHT])).2 (by norm_num)⟩

/-! ## Claim C5: the spawn batch -/

/-- The retry loop only ever returns a lane outside the used set. -/
theorem pickFreshLane_not_used (used : List ℤ) :
    ∀ (rands rest : List (Fin 3)) (lane : ℤ),
      pickFreshLane used rands = some (lane, rest) → lane ∉ used := by
  intro rands
  induction rands with
  | nil => intro rest lane h; simp [pickFreshLane] at h
  | cons r rs ih =>
      intro rest lane h
      rw [pickFreshLane] at h
      by_cases hmem : ((r : ℕ) : ℤ) ∈ used
      · rw [if_pos hmem] at h
        exact ih _ _ h
      · rw [if_neg hmem] at h
        obtain ⟨h1, h2⟩ := Prod.mk.injEq .. ▸ Option.some.inj h
        exact h1 ▸ hmem

/-- Every successful run of the spawn loop appends obstacles built by
`mkObstacle` from a duplicate-free list of lanes disjoint from the lanes
already used. -/
theorem spawnLoop_spec (gameTime : ℚ) :
    ∀ (n : ℕ) (used : List ℤ) (acc out : List GameObject)
      (rands rest : List (Fin 3)),
      spawnLoop gameTime n used acc rands = some (out, rest) →
      ∃ lanes : List ℤ,
        out = acc ++ lanes.map (fun l => mkObstacle l gameTime) ∧
        lanes.length = n ∧ lanes.Nodup ∧ ∀ l ∈ lanes, l ∉ used := by
  intro n
  induction n with
  | zero =>
      intro used acc out rands rest h
      rw [spawnLoop] at h
      obtain ⟨h1, h2⟩ := Prod.mk.injEq .. ▸ Option.some.inj h
      exact ⟨[], by simp [h1], rfl, List.nodup_nil, by simp⟩
  | succ n ih =>
      intro used acc out rands rest h
      rw [spawnLoop] at h
      cases hp : pickFreshLane used rands with
      | none => rw [hp] at h; exact absurd h (by simp)
      | some p =>
          obtain ⟨lane, rest1⟩ := p
          rw [hp] at h
          obtain ⟨lanes, hout, hlen, hnodup, hused⟩ := ih _ _ _ _ _ h
          have hlane : lane ∉ used := pickFreshLane_not_used used _ _ _ hp
          refine ⟨lane :: lanes, ?_, by simp [hlen], ?_, ?_⟩
          · simp [hout]
          · exact List.nodup_cons.mpr
              ⟨fun hmem => hused lane hmem (List.mem_cons_self _ _), hnodup⟩
          · intro l hl
            rcases List.mem_cons.mp hl with rfl | hl
            · exact hlane
            · exact fun hu => hused l hl (List.mem_cons_of_mem _ hu)

/-- **C5**: whenever the spawn interval has elapsed and the spawner
succeeds, it appends between 1 and 3 new obstacles with pairwise
distinct lanes, each with fall speed
`OBSTACLE_FALL_SPEED + gameTime / 60`. -/
theorem generateObstacles_spawn_batch (timestamp gameTime lastObstacleTime : ℚ)
    (obstacles : List GameObject) (rands : List (Fin 3))
    (obstacles2 : List GameObject) (t2 : ℚ) (rest2 : List (Fin 3))
    (hgap : timestamp - lastObstacleTime > OBSTACLE_SPAWN_INTERVAL)
    (h : generateObstacles timestamp gameTime lastObstacleTime obstacles rands =
      some (obstacles2, t2, rest2)) :
    ∃ new : List GameObject,
      obstacles2 = obstacles ++ new ∧
      1 ≤ new.length ∧ new.length ≤ 3 ∧
      (new.map GameObject.lane).Nodup ∧
      ∀ ob ∈ new, ob.speed = some (OBSTACLE_FALL_SPEED + gameTime / 60) := by
  rw [generateObstacles.eq_def, if_pos hgap] at h
  cases rands with
  | nil => exact absurd h (by simp)
  | cons r rest =>
      simp only at h
      cases hs : spawnLoop gameTime (min 3 ((r : ℕ) + 1)) [] obstacles rest with
      | none => rw [hs] at h; exact absurd h (by simp)
      | some p =>
          obtain ⟨obs2, rest2x⟩ := p
          rw [hs] at h
          obtain ⟨hobs, -, -⟩ := Prod.mk.injEq .. ▸ Option.some.inj h
          obtain ⟨lanes, hout, hlen, hnodup, -⟩ :=
            spawnLoop_spec gameTime _ _ _ _ _ _ hs
          refine ⟨lanes.map (fun l => mkObstacle l gameTime),
            by rw [← hobs, hout], ?_, ?_, ?_, ?_⟩
          · have hr : (r : ℕ) < 3 := r.isLt
            simp only [List.length_map, hlen]
            omega
          · have hr : (r : ℕ) < 3 := r.isLt
            simp only [List.length_map, hlen]
            omega
          · have hmm : ∀ ls : List ℤ,
                (ls.map (fun l => mkObstacle l gameTime)).map GameObject.lane
                  = ls := by
              intro ls
              induction ls with
              | nil => rfl
              | cons a t iht =>
                  rw [List.map_cons, List.map_cons, iht]
                  rfl
            rw [hmm]
            exact hnodup
          · intro ob hob
            obtain ⟨l, -, rfl⟩ := List.mem_map.mp hob
            simp [mkObstacle]

/-- Witness for C5: a spawn at timestamp 600 (last spawn at 0) with
draws `[0, 1]` creates one obstacle, in lane 1, at speed `8 + 30/60`. -/
theorem generateObstacles_spawn_batch_witness :
    ∃ new : List GameObject,
      [mkObstacle 1 30] = ([] : List GameObject) ++ new ∧
      1 ≤ new.length ∧ new.length ≤ 3 ∧
      (new.map GameObject.lane).Nodup ∧
      ∀ ob ∈ new, ob.speed = some (OBSTACLE_FALL_SPEED + 30 / 60) :=
  generateObstacles_spawn_batch 600 30 0 [] [⟨0, by omega⟩, ⟨1, by omega⟩]
    [mkObstacle 1 30] 600 [] (by norm_num [OBSTACLE_SPAWN_INTERVAL])
    (by norm_num [generateObstacles, spawnLoop, pickFreshLane,
      OBSTACLE_SPAWN_INTERVAL])

/-! ## Claim C3: the collision pause freezes the frame and game time -/

/-- **C3**: while `now` is before the pause deadline a frame update
changes nothing at all (player physics, obstacles, game time, spawning);
and in an unpaused frame of a running game whose resulting pause
deadline is still past (no collision set a new one), game time advances
by exactly `1/60`. -/
theorem pause_freezes_frame_and_time (canvasPresent : Bool)
    (timestamp now : ℚ) (rands : List (Fin 3)) (s s' : GameState) :
    (now < s.pausedUntil →
      gameLoop canvasPresent timestamp now rands s = some s) ∧
    (canvasPresent = true → s.gameOver = false → s.pausedUntil ≤ now →
      gameLoop canvasPresent timestamp now rands s = some s' →
      s'.pausedUntil ≤ now → s'.gameTime = s.gameTime + 1 / 60) := by
  constructor
  · intro h
    rw [gameLoop]
    split
    · rfl
    · rw [if_neg (not_le.mpr h)]
  · intro hc hg hp h hp'
    subst hc
    rw [gameLoop] at h
    rw [if_neg (by simp [hg]), if_pos hp] at h
    cases hgen : generateObstacles timestamp s.gameTime s.lastObstacleTime
        s.obstacles rands with
    | none => rw [hgen] at h; exact absurd h (by simp)
    | some p =>
        obtain ⟨obs1, last1, rands1⟩ := p
        rw [hgen] at h
        simp only at h
        cases hol : obstacleLoop (applyPhysics s.player) now obs1
            { health := s.health, gameOver := s.gameOver,
              collision := s.collision, pausedUntil := s.pausedUntil } with
        | mk obs2 st =>
            rw [hol] at h
            simp only at h
            obtain rfl := (Option.some.inj h).symm
            simp only at hp' ⊢
            rw [if_pos hp']

/-- A paused session state: deadline 2000, one obstacle in flight. -/
def wPausedState : GameState :=
  { health := 2, gameTime := 5, gameOver := false, gameStarted := true,
    collision := some { x := 10, y := 300, timestamp := 0 },
    pausedUntil := 2000, player := wPlayer, obstacles := [wOb],
    lastObstacleTime := 0 }

/-- A running, unpaused session state with no obstacles. -/
def wRunning : GameState := startGame initState

/-- The state one clean (collision-free, spawn-free) frame after
`wRunning`. -/
def wRunningNext : GameState := { wRunning with gameTime := 0 + 1 / 60 }

/-- Witness for C3: a frame at `now = 0` on the paused state is the
identity; a clean frame at `now = 50` on the running state advances game
time by `1/60`. -/
theorem pause_freezes_frame_and_time_witness :
    gameLoop true 100 0 [] wPausedState = some wPausedState ∧
    wRunningNext.gameTime = wRunning.gameTime + 1 / 60 :=
  ⟨(pause_freezes_frame_and_time true 100 0 [] wPausedState wPausedState).1
      (by norm_num [wPausedState]),
   (pause_freezes_frame_and_time true 100 50 [] wRunning wRunningNext).2
      rfl (by norm_num [wRunning, startGame])
      (by norm_num [wRunning, startGame])
      (by norm_num [gameLoop, wRunning, wRunningNext, startGame, initState,
        applyPhysics, generateObstacles, obstacleLoop, GAME_HEIGHT,
        PLAYER_HEIGHT, PLAYER_WIDTH, GRAVITY, OBSTACLE_SPAWN_INTERVAL,
        getLaneX, LANE_WIDTH, GAME_WIDTH])
      (by norm_num [wRunningNext, wRunning, startGame])⟩

/-! ## Shared invariant machinery for C8 and C10 -/

/-- The three possible outcomes of any input handler on the player:
unchanged, a jump start, or a guarded lane shift that re-derives `x`
from the new lane. -/
def HandlerShape (p q : Player) : Prop :=
  q = p ∨ q = { p with velocityY := JUMP_FORCE, isJumping := true } ∨
  ∃ l : ℤ,
    ((l = p.lane - 1 ∧ 0 < p.lane) ∨
     (l = p.lane + 1 ∧ p.lane < LANE_COUNT - 1)) ∧
    q = { p with lane := l, x := getLaneX l }

/-- `handleKeyDown` always produces one of the three handler outcomes. -/
theorem handleKeyDown_shape (now pausedUntil : ℚ) (code : KeyCode)
    (player : Player) :
    HandlerShape player (handleKeyDown now pausedUntil code player) := by
  rw [HandlerShape, handleKeyDown.eq_def]
  split
  · exact Or.inl rfl
  · split
    · split
      · exact Or.inr (Or.inl rfl)
      · exact Or.inl rfl
    · split
      · exact Or.inr (Or.inl rfl)
      · exact Or.inl rfl
    · split
      · next hl => exact Or.inr (Or.inr ⟨player.lane - 1, Or.inl ⟨rfl, hl⟩, rfl⟩)
      · exact Or.inl rfl
    · split
      · next hl => exact Or.inr (Or.inr ⟨player.lane + 1, Or.inr ⟨rfl, hl⟩, rfl⟩)
      · exact Or.inl rfl
    · exact Or.inl rfl

/-- `handleTouchStart` always produces one of the three handler outcomes. -/
theorem handleTouchStart_shape (now pausedUntil : ℚ) (canvasPresent : Bool)
    (relX relY rectHeight : ℚ) (player : Player) :
    HandlerShape player
      (handleTouchStart now pausedUntil canvasPresent relX relY rectHeight
        player) := by
  rw [HandlerShape, handleTouchStart]
  split
  · exact Or.inl rfl
  · split
    · exact Or.inl rfl
    · split
      · split
        · exact Or.inr (Or.inl rfl)
        · exact Or.inl rfl
      · split
        · next hl =>
            exact Or.inr (Or.inr ⟨player.lane - 1, Or.inl ⟨rfl, hl.2⟩, rfl⟩)
        · split
          · next hl =>
              exact Or.inr (Or.inr ⟨player.lane + 1, Or.inr ⟨rfl, hl.2⟩, rfl⟩)
          · exact Or.inl rfl

/-- `handleMobileControl` always produces one of the three handler
outcomes. -/
theorem handleMobileControl_shape (now pausedUntil : ℚ)
    (action : MobileAction) (player : Player) :
    HandlerShape player (handleMobileControl now pausedUntil action player) := by
  rw [HandlerShape, handleMobileControl.eq_def]
  split
  · exact Or.inl rfl
  · split
    · split
      · exact Or.inr (Or.inl rfl)
      · exact Or.inl rfl
    · split
      · next hl => exact Or.inr (Or.inr ⟨player.lane - 1, Or.inl ⟨rfl, hl⟩, rfl⟩)
      · exact Or.inl rfl
    · split
      · next hl => exact Or.inr (Or.inr ⟨player.lane + 1, Or.inr ⟨rfl, hl⟩, rfl⟩)
      · exact Or.inl rfl

/-- A handler outcome keeps the lane within `[0, LANE_COUNT - 1]`. -/
theorem HandlerShape.lane_bounds {p q : Player} (hs : HandlerShape p q)
    (h0 : 0 ≤ p.lane) (h1 : p.lane ≤ LANE_COUNT - 1) :
    0 ≤ q.lane ∧ q.lane ≤ LANE_COUNT - 1 := by
  rcases hs with rfl | rfl | ⟨l, hl, rfl⟩
  · exact ⟨h0, h1⟩
  · exact ⟨h0, h1⟩
  · simp only [LANE_COUNT] at h0 h1 hl ⊢
    rcases hl with ⟨rfl, h⟩ | ⟨rfl, h⟩ <;> constructor <;> omega

/-- A handler outcome keeps `x` derived from the lane. -/
theorem HandlerShape.x_matches_lane {p q : Player} (hs : HandlerShape p q)
    (hx : p.x = getLaneX p.lane) : q.x = getLaneX q.lane := by
  rcases hs with rfl | rfl | ⟨l, -, rfl⟩
  · exact hx
  · exact hx
  · rfl

/-- Gravity and the ground clamp do not move the player sideways. -/
theorem applyPhysics_lane_x (p : Player) :
    (applyPhysics p).lane = p.lane ∧ (applyPhysics p).x = p.x := by
  simp only [applyPhysics]
  split
  · exact ⟨rfl, rfl⟩
  · exact ⟨rfl, rfl⟩

/-- The obstacle loop keeps health within `[0, 3]`: a collision either
zeroes it or decrements a value that was at least 2. -/
theorem obstacleLoop_health_bounds (player : Player) (now : ℚ) :
    ∀ (obs : List GameObject) (st : LoopState),
      0 ≤ st.health → st.health ≤ 3 →
      0 ≤ (obstacleLoop player now obs st).2.health ∧
        (obstacleLoop player now obs st).2.health ≤ 3 := by
  intro obs
  induction obs with
  | nil => intro st h0 h3; exact ⟨h0, h3⟩
  | cons ob rest ih =>
      intro st h0 h3
      rw [obstacleLoop]
      cases hol : obstacleLoop player now rest st with
      | mk restOut st1 =>
          have hb := ih st h0 h3
          rw [hol] at hb
          simp only at hb ⊢
          split
          · exact hb
          · split
            · split
              · simp only
                omega
              · next hgt =>
                  simp only at hgt ⊢
                  omega
            · exact hb

/-- The obstacle loop only moves obstacles vertically or drops them, so
every surviving obstacle keeps `x` derived from its lane. -/
theorem obstacleLoop_x_matches_lane (player : Player) (now : ℚ) :
    ∀ (obs : List GameObject) (st : LoopState),
      (∀ ob ∈ obs, ob.x = getLaneX ob.lane) →
      ∀ ob ∈ (obstacleLoop player now obs st).1, ob.x = getLaneX ob.lane := by
  intro obs
  induction obs with
  | nil => intro st _ ob hob; simp [obstacleLoop] at hob
  | cons ob rest ih =>
      intro st hin obx hobx
      rw [obstacleLoop] at hobx
      cases hol : obstacleLoop player now rest st with
      | mk restOut st1 =>
          have hrest : ∀ o ∈ restOut, o.x = getLaneX o.lane := by
            intro o ho
            have := ih st (fun o ho => hin o (List.mem_cons_of_mem _ ho))
            rw [hol] at this
            exact this o ho
          have hmoved : ({ ob with y := ob.y + fallSpeed ob } : GameObject).x =
              getLaneX ({ ob with y := ob.y + fallSpeed ob } : GameObject).lane :=
            hin ob (List.mem_cons_self _ _)
          rw [hol] at hobx
          simp only at hobx
          split at hobx
          · exact hrest obx hobx
          · split at hobx
            · split at hobx
              · rcases List.mem_cons.mp hobx with rfl | hm
                · exact hmoved
                · exact hrest obx hm
              · exact hrest obx hobx
            · rcases List.mem_cons.mp hobx with rfl | hm
              · exact hmoved
              · exact hrest obx hm

/-- The spawner preserves lane-derived `x` coordinates: old obstacles
are kept as they are and new ones are built with `x = getLaneX lane`. -/
theorem generateObstacles_x_matches_lane
    (timestamp gameTime lastObstacleTime : ℚ) (obstacles : List GameObject)
    (rands : List (Fin 3)) (obs2 : List GameObject) (t2 : ℚ)
    (rest2 : List (Fin 3))
    (h : generateObstacles timestamp gameTime lastObstacleTime obstacles
      rands = some (obs2, t2, rest2))
    (hin : ∀ ob ∈ obstacles, ob.x = getLaneX ob.lane) :
    ∀ ob ∈ obs2, ob.x = getLaneX ob.lane := by
  rw [generateObstacles.eq_def] at h
  split at h
  · cases rands with
    | nil => exact absurd h (by simp)
    | cons r rest =>
        simp only at h
        cases hs : spawnLoop gameTime (min 3 ((r : ℕ) + 1)) [] obstacles rest with
        | none => rw [hs] at h; exact absurd h (by simp)
        | some p =>
            obtain ⟨out, restx⟩ := p
            rw [hs] at h
            obtain ⟨hobs, -, -⟩ := Prod.mk.injEq .. ▸ Option.some.inj h
            obtain ⟨lanes, hout, -, -, -⟩ :=
              spawnLoop_spec gameTime _ _ _ _ _ _ hs
            rw [← hobs, hout]
            intro ob hob
            rcases List.mem_append.mp hob with hold | hnew
            · exact hin ob hold
            · obtain ⟨l, -, rfl⟩ := List.mem_map.mp hnew
              rfl
  · obtain ⟨hobs, -, -⟩ := Prod.mk.injEq .. ▸ Option.some.inj h
    rw [← hobs]
    exact hin

/-- The `LoopState` slice of the session state handed to the obstacle
loop. -/
def loopStateOf (s : GameState) : LoopState :=
  { health := s.health, gameOver := s.gameOver, collision := s.collision,
    pausedUntil := s.pausedUntil }

/-- A successful frame update either changes nothing (missing canvas,
game over, or pause in force) or produces exactly the record built from
the physics step, the spawner and the obstacle loop. -/
theorem gameLoop_cases (c : Bool) (timestamp now : ℚ)
    (rands : List (Fin 3)) (s s' : GameState)
    (h : gameLoop c timestamp now rands s = some s') :
    s' = s ∨
    ∃ (obs1 : List GameObject) (last1 : ℚ) (rands1 : List (Fin 3)),
      generateObstacles timestamp s.gameTime s.lastObstacleTime s.obstacles
        rands = some (obs1, last1, rands1) ∧
      s' =
        { health :=
            (obstacleLoop (applyPhysics s.player) now obs1 (loopStateOf s)).2.health
          gameTime :=
            if now ≥
                (obstacleLoop (applyPhysics s.player) now obs1
                  (loopStateOf s)).2.pausedUntil then
              s.gameTime + 1 / 60
            else s.gameTime
          gameOver :=
            (obstacleLoop (applyPhysics s.player) now obs1 (loopStateOf s)).2.gameOver
          gameStarted := s.gameStarted
          collision :=
            (obstacleLoop (applyPhysics s.player) now obs1 (loopStateOf s)).2.collision
          pausedUntil :=
            (obstacleLoop (applyPhysics s.player) now obs1
              (loopStateOf s)).2.pausedUntil
          player := applyPhysics s.player
          obstacles :=
            (obstacleLoop (applyPhysics s.player) now obs1 (loopStateOf s)).1
          lastObstacleTime := last1 } := by
  rw [gameLoop] at h
  split at h
  · exact Or.inl (Option.some.inj h).symm
  · split at h
    · cases hgen : generateObstacles timestamp s.gameTime s.lastObstacleTime
          s.obstacles rands with
      | none => rw [hgen] at h; exact absurd h (by simp)
      | some p =>
          obtain ⟨obs1, last1, rands1⟩ := p
          rw [hgen] at h
          simp only at h
          have hol2 : obstacleLoop (applyPhysics s.player) now obs1
              { health := s.health, gameOver := s.gameOver,
                collision := s.collision, pausedUntil := s.pausedUntil } =
              ((obstacleLoop (applyPhysics s.player) now obs1
                  (loopStateOf s)).1,
               (obstacleLoop (applyPhysics s.player) now obs1
                  (loopStateOf s)).2) := Prod.mk.eta.symm
          rw [hol2] at h
          simp only at h
          exact Or.inr ⟨obs1, last1, rands1, rfl, (Option.some.inj h).symm⟩
    · exact Or.inl (Option.some.inj h).symm

/-! ## Claim C8: lane and health bounds are invariant -/

/-- **C8**: in every state reachable from the initial state by input
handlers, frame updates and restarts, the player's lane is in
`[0, LANE_COUNT - 1]` and health is in `[0, 3]`; the induction over
`Reachable` is exactly the proof that every operation preserves both
bounds. -/
theorem reachable_lane_health_bounds (s : GameState) (h : Reachable s) :
    0 ≤ s.player.lane ∧ s.player.lane ≤ LANE_COUNT - 1 ∧
    0 ≤ s.health ∧ s.health ≤ 3 := by
  induction h with
  | init =>
      refine ⟨?_, ?_, ?_, ?_⟩ <;> norm_num [initState, LANE_COUNT]
  | key now code hr ih =>
      obtain ⟨i0, i1, i2, i3⟩ := ih
      obtain ⟨l0, l1⟩ :=
        (handleKeyDown_shape now _ code _).lane_bounds i0 i1
      exact ⟨l0, l1, i2, i3⟩
  | touch now canvasPresent relX relY rectHeight hr ih =>
      obtain ⟨i0, i1, i2, i3⟩ := ih
      obtain ⟨l0, l1⟩ :=
        (handleTouchStart_shape now _ canvasPresent relX relY rectHeight
          _).lane_bounds i0 i1
      exact ⟨l0, l1, i2, i3⟩
  | mobile now action hr ih =>
      obtain ⟨i0, i1, i2, i3⟩ := ih
      obtain ⟨l0, l1⟩ :=
        (handleMobileControl_shape now _ action _).lane_bounds i0 i1
      exact ⟨l0, l1, i2, i3⟩
  | @frame c timestamp now rands s s' hr hgl ih =>
      rcases gameLoop_cases _ _ _ _ _ _ hgl with rfl | ⟨obs1, last1, rands1, -, rfl⟩
      · exact ih
      · obtain ⟨i0, i1, i2, i3⟩ := ih
        refine ⟨?_, ?_, ?_, ?_⟩
        · show 0 ≤ (applyPhysics s.player).lane
          rw [(applyPhysics_lane_x s.player).1]
          exact i0
        · show (applyPhysics s.player).lane ≤ LANE_COUNT - 1
          rw [(applyPhysics_lane_x s.player).1]
          exact i1
        · exact (obstacleLoop_health_bounds (applyPhysics s.player) now obs1
            (loopStateOf s) i2 i3).1
        · exact (obstacleLoop_health_bounds (applyPhysics s.player) now obs1
            (loopStateOf s) i2 i3).2
  | restart hr ih =>
      refine ⟨?_, ?_, ?_, ?_⟩ <;> norm_num [startGame, LANE_COUNT]

/-- Witness for C8 at the initial state. -/
theorem reachable_lane_health_bounds_witness :
    0 ≤ initState.player.lane ∧ initState.player.lane ≤ LANE_COUNT - 1 ∧
    0 ≤ initState.health ∧ initState.health ≤ 3 :=
  reachable_lane_health_bounds initState Reachable.init

/-! ## Claim C10: x coordinates always match lanes -/

/-- **C10**: in every reachable state the player's `x` is `getLaneX` of
the player's lane, and every active obstacle's `x` is `getLaneX` of the
obstacle's lane; each operation only changes an `x` together with its
lane (lane moves set `x := getLaneX lane`, physics and falling only move
`y`, spawns build `x` from the fresh lane). -/
theorem reachable_x_matches_lane (s : GameState) (h : Reachable s) :
    s.player.x = getLaneX s.player.lane ∧
    ∀ ob ∈ s.obstacles, ob.x = getLaneX ob.lane := by
  induction h with
  | init =>
      constructor
      · show LANE_WIDTH + (LANE_WIDTH - PLAYER_WIDTH) / 2 = getLaneX 1
        rw [getLaneX]
        norm_num
      · intro ob hob
        simp [initState] at hob
  | key now code hr ih =>
      exact ⟨(handleKeyDown_shape now _ code _).x_matches_lane ih.1, ih.2⟩
  | touch now canvasPresent relX relY rectHeight hr ih =>
      exact ⟨(handleTouchStart_shape now _ canvasPresent relX relY
        rectHeight _).x_matches_lane ih.1, ih.2⟩
  | mobile now action hr ih =>
      exact ⟨(handleMobileControl_shape now _ action _).x_matches_lane ih.1,
        ih.2⟩
  | @frame c timestamp now rands s s' hr hgl ih =>
      rcases gameLoop_cases _ _ _ _ _ _ hgl with rfl | ⟨obs1, last1, rands1, hgen, rfl⟩
      · exact ih
      · constructor
        · show (applyPhysics s.player).x = getLaneX (applyPhysics s.player).lane
          rw [(applyPhysics_lane_x s.player).1, (applyPhysics_lane_x s.player).2]
          exact ih.1
        · exact obstacleLoop_x_matches_lane (applyPhysics s.player) now obs1
            (loopStateOf s)
            (generateObstacles_x_matches_lane _ _ _ _ _ _ _ _ hgen ih.2)
  | restart hr ih =>
      constructor
      · rfl
      · intro ob hob
        simp [startGame] at hob

/-- Witness for C10 at the initial state. -/
theorem reachable_x_matches_lane_witness :
    initState.player.x = getLaneX initState.player.lane ∧
    ∀ ob ∈ initState.obstacles, ob.x = getLaneX ob.lane :=
  reachable_x_matches_lane initState Reachable.init

end Superbowl
